import Mathlib

/-!
Verification of the stock-web-dashboard analytics core against its
natural-language specification.  The Python sources under src/ are shallowly
embedded: SQLite-backed stores become association lists or lookup functions,
floats become rationals, and nullable columns become Option values.
-/

/-- A stored portfolio position: the columns of the portfolio table that
calculate_profit_loss, check_alert and get_strategy read
(src/data/portfolio.py).  Numeric columns are rationals.  A missing or NULL
stop_loss/stop_profit is modelled as 0, which the code treats identically to
a stored 0 (Python falsiness: both skip the stop band). -/
structure Position where
  name : String
  cost : ℚ
  shares : ℚ
  stop_loss : ℚ
  stop_profit : ℚ
deriving Repr, DecidableEq

/-- Structured result of PortfolioManager.calculate_profit_loss
(src/data/portfolio.py lines 239-251). -/
structure PLResult where
  code : String
  name : String
  cost : ℚ
  shares : ℚ
  current_price : ℚ
  cost_total : ℚ
  current_total : ℚ
  profit_loss : ℚ
  profit_loss_pct : ℚ
  stop_loss : ℚ
  stop_profit : ℚ
deriving Repr, DecidableEq

/-- Body of calculate_profit_loss once the position is fetched
(src/data/portfolio.py lines 231-251). -/
def computePL (code : String) (stock : Position) (current_price : ℚ) : PLResult :=
  let cost := stock.cost
  let shares := stock.shares
  let cost_total := cost * shares
  let current_total := current_price * shares
  let profit_loss := current_total - cost_total
  let profit_loss_pct := if cost_total > 0 then profit_loss / cost_total * 100 else 0
  { code := code
    name := stock.name
    cost := cost
    shares := shares
    current_price := current_price
    cost_total := cost_total
    current_total := current_total
    profit_loss := profit_loss
    profit_loss_pct := profit_loss_pct
    stop_loss := stock.stop_loss
    stop_profit := stock.stop_profit }

/-- PortfolioManager.calculate_profit_loss (src/data/portfolio.py lines
225-251): the SELECT-by-code lookup is the store function; an unknown code
returns None. -/
def calculate_profit_loss (store : String → Option Position) (code : String)
    (current_price : ℚ) : Option PLResult :=
  match store code with
  | none => none
  | some stock => some (computePL code stock current_price)

/-- Alert thresholds passed to check_alert; the route passes
loss_threshold / gain_threshold keys (dict defaults 5 and 10 apply when a key
is absent and are supplied by the caller of this embedding). -/
structure Thresholds where
  loss_threshold : ℚ
  gain_threshold : ℚ
deriving Repr, DecidableEq

/-- Result dict of PortfolioManager.check_alert when an alert fires. -/
structure AlertResult where
  code : String
  name : String
  price : ℚ
  profit_loss_pct : ℚ
  alerts : List String
deriving Repr, DecidableEq

/-- The alerts list built by check_alert: the loss flag is appended first,
then the gain flag (src/data/portfolio.py lines 260-266). -/
def alertsOf (pl : PLResult) (thresholds : Thresholds) : List String :=
  (if pl.profit_loss_pct ≤ -thresholds.loss_threshold then ["loss"] else []) ++
  (if pl.profit_loss_pct ≥ thresholds.gain_threshold then ["gain"] else [])

/-- PortfolioManager.check_alert (src/data/portfolio.py lines 253-277):
computes profit/loss, builds the alerts list, and returns None when the
position is unknown or no flag fired. -/
def check_alert (store : String → Option Position) (code : String)
    (current_price : ℚ) (thresholds : Thresholds) : Option AlertResult :=
  match calculate_profit_loss store code current_price with
  | none => none
  | some pl =>
    if alertsOf pl thresholds = [] then none
    else some { code := code
                name := pl.name
                price := current_price
                profit_loss_pct := pl.profit_loss_pct
                alerts := alertsOf pl thresholds }

/-- Input dict of get_strategy (src/app.py lines 380-398): the four fields the
function reads, each defaulting to 0 when absent or NULL (get default 0;
a NULL stop value is falsy exactly like 0 in the stop-band guards). -/
structure StrategyInput where
  profit_loss_pct : ℚ
  current_price : ℚ
  stop_loss : ℚ
  stop_profit : ℚ
deriving Repr, DecidableEq

/-- get_strategy (src/app.py lines 380-398).  The stop bands are guarded by
Python truthiness of stop_loss / stop_profit: a zero (or NULL/absent) stop
value skips its band. -/
def get_strategy (pl : StrategyInput) : String :=
  if pl.stop_loss ≠ 0 ∧ pl.current_price ≤ pl.stop_loss then "🛑 觸及停損"
  else if pl.stop_profit ≠ 0 ∧ pl.current_price ≥ pl.stop_profit then "✅ 觸及停利"
  else if pl.profit_loss_pct ≥ 10 then "🎯 漲多"
  else if pl.profit_loss_pct ≥ 5 then "✅ 續抱"
  else if pl.profit_loss_pct ≥ 0 then "🔸 續抱等解套"
  else if pl.profit_loss_pct ≥ -5 then "⚠️ 留意"
  else "🛑 建議停損"

/-- The seven labels get_strategy can produce, in band order. -/
def strategyLabels : List String :=
  ["🛑 觸及停損", "✅ 觸及停利", "🎯 漲多", "✅ 續抱", "🔸 續抱等解套", "⚠️ 留意", "🛑 建議停損"]

/-- A demonstration store holding one position (cost 100, 0 shares,
no stops), used by the concrete witnesses. -/
def demoStore : String → Option Position := fun c =>
  if c = "2330" then some { name := "台積電", cost := 100, shares := 0, stop_loss := 0, stop_profit := 0 }
  else none

/-- PortfolioManager.update (src/data/portfolio.py lines 189-210): an SQL
UPDATE ... WHERE code = ?, modelled on the table as an association list
(code is UNIQUE); rows with a different code are untouched. -/
def pmUpdate (table : List (String × Position)) (code : String)
    (data : Position) : List (String × Position) :=
  table.map (fun e => if e.1 = code then (e.1, data) else e)

/-- PortfolioManager.remove (src/data/portfolio.py lines 212-218): an SQL
DELETE FROM portfolio WHERE code = ?. -/
def pmRemove (table : List (String × Position)) (code : String) :
    List (String × Position) :=
  table.filter (fun e => e.1 ≠ code)

/-- The methods defined by class TradeJournal (src/data/trade_journal.py):
Python attribute lookup on a TradeJournal instance succeeds exactly for these
names.  The routes api_trade_update and api_trade_delete (src/app.py lines
345-360) call update_trade and delete_trade, which are not among them. -/
def tradeJournalMethods : List String :=
  ["__init__", "_init_db", "_generate_id", "add_trade", "get_trades",
   "analyze_performance", "_analyze_discipline", "_analyze_strategy",
   "import_trades", "backup"]

/-- Python attribute dispatch on a TradeJournal instance: a name resolves only
if the class defines it; otherwise the call raises AttributeError. -/
def tradeJournalHasMethod (name : String) : Bool :=
  tradeJournalMethods.contains name

/-- Pandas rolling(n).mean() over a series (src/app.py lines 169-171,
src/data/fetcher.py lines 181-183, 199-200): at index i the value is the
arithmetic mean of the last n entries of the prefix ending at i, and NaN
(none) while fewer than n entries are available. -/
def rollingMean (xs : List ℚ) (n : ℕ) : List (Option ℚ) :=
  (List.range xs.length).map (fun i =>
    if i + 1 < n then none
    else some (((xs.take (i + 1)).drop (i + 1 - n)).sum / n))

/-- The ma5/ma20/ma60 arrays of the per-stock API view (src/app.py lines
169-171 and 186-188): rolling(n).mean().fillna(0), then each entry is emitted
as a number (None only for NaN, which fillna(0) has removed). -/
def apiMaArr (closes : List ℚ) (n : ℕ) : List (Option ℚ) :=
  (rollingMean closes n).map (fun o => some (o.getD 0))

/-- The single ma value of StockDataFetcher._calculate_indicators
(src/data/fetcher.py lines 181-183, 220-222): the last entry of the rolling
mean, emitted as None when NaN. -/
def fetcherMaLast (closes : List ℚ) (n : ℕ) : Option ℚ :=
  (rollingMean closes n).getD (closes.length - 1) none

/-- The gain series of the RSI computation (src/app.py line 173,
src/data/fetcher.py line 199): delta.where(delta > 0, 0), where
delta = close.diff(); the leading NaN delta fails the > 0 test and becomes
0. -/
def gainsOf (xs : List ℚ) : List ℚ :=
  (List.range xs.length).map (fun i =>
    if i = 0 then 0
    else if xs.getD i 0 - xs.getD (i - 1) 0 > 0 then xs.getD i 0 - xs.getD (i - 1) 0 else 0)

/-- The loss series of the RSI computation (src/app.py line 174,
src/data/fetcher.py line 200): (-delta.where(delta < 0, 0)). -/
def lossesOf (xs : List ℚ) : List ℚ :=
  (List.range xs.length).map (fun i =>
    if i = 0 then 0
    else if xs.getD i 0 - xs.getD (i - 1) 0 < 0 then -(xs.getD i 0 - xs.getD (i - 1) 0) else 0)

/-- The rsi array of the per-stock API view (src/app.py lines 172-177, 189):
14-period rolling means of gains and losses, a zero average loss replaced by
the epsilon 0.0001, rs = gain/loss, rsi = 100 − 100/(1+rs), NaN positions
(unfilled window) filled with 50. -/
def apiRsi (xs : List ℚ) : List ℚ :=
  (List.range xs.length).map (fun i =>
    match (rollingMean (gainsOf xs) 14).getD i none,
          (rollingMean (lossesOf xs) 14).getD i none with
    | some g, some l0 =>
      let l := if l0 = 0 then 1 / 10000 else l0
      100 - 100 / (1 + g / l)
    | _, _ => 50)

/-- The single rsi value of StockDataFetcher._calculate_indicators
(src/data/fetcher.py lines 197-203, 225): same gain/loss means, but a zero
average loss is replaced by NaN (np.nan), so rs and rsi become NaN and the
output is None; the last entry is emitted, None when NaN. -/
def fetcherRsiLast (xs : List ℚ) : Option ℚ :=
  match (rollingMean (gainsOf xs) 14).getD (xs.length - 1) none,
        (rollingMean (lossesOf xs) 14).getD (xs.length - 1) none with
  | some g, some l =>
    if l = 0 then none else some (100 - 100 / (1 + g / l))
  | _, _ => none

/-- Minimum of a non-empty list of rationals (0 for the empty list, which the
rolling windows never produce). -/
def listMin : List ℚ → ℚ
  | [] => 0
  | [x] => x
  | x :: y :: rest => min x (listMin (y :: rest))

/-- Maximum of a non-empty list of rationals (0 for the empty list, which the
rolling windows never produce). -/
def listMax : List ℚ → ℚ
  | [] => 0
  | [x] => x
  | x :: y :: rest => max x (listMax (y :: rest))

/-- Pandas rolling(n).min() (src/data/fetcher.py line 186): NaN until the
window is filled, then the minimum of the n trailing entries. -/
def rollingMin (xs : List ℚ) (n : ℕ) : List (Option ℚ) :=
  (List.range xs.length).map (fun i =>
    if i + 1 < n then none
    else some (listMin ((xs.take (i + 1)).drop (i + 1 - n))))

/-- Pandas rolling(n).max() (src/data/fetcher.py line 187): NaN until the
window is filled, then the maximum of the n trailing entries. -/
def rollingMax (xs : List ℚ) (n : ℕ) : List (Option ℚ) :=
  (List.range xs.length).map (fun i =>
    if i + 1 < n then none
    else some (listMax ((xs.take (i + 1)).drop (i + 1 - n))))

/-- The RSV series of the KD computation (src/data/fetcher.py lines 185-193):
rsv = (close − min(low,9)) / (max(high,9) − min(low,9)) × 100, with a zero
denominator replaced by NaN (np.nan) before dividing, so a flat window
propagates NaN instead of dividing by zero. -/
def rsvList (high low close : List ℚ) : List (Option ℚ) :=
  (List.range close.length).map (fun i =>
    match (rollingMax high 9).getD i none, (rollingMin low 9).getD i none with
    | some hM, some lm =>
      if hM - lm = 0 then none
      else some ((close.getD i 0 - lm) / (hM - lm) * 100)
    | _, _ => none)

/-- One step of the pandas ewm(adjust=True, ignore_na=False) recurrence on a
series with NaNs: the weighted numerator and the weight sum both decay by
(1 − α); a NaN observation contributes nothing but still ages the weights. -/
def ewmStep (a : ℚ) (st : ℚ × ℚ) (x : Option ℚ) : ℚ × ℚ :=
  match x with
  | none => ((1 - a) * st.1, (1 - a) * st.2)
  | some v => ((1 - a) * st.1 + v, (1 - a) * st.2 + 1)

/-- Pandas Series.ewm(...).mean() with adjust=True over an Option-valued
series, from a given (numerator, weight-sum) state: each output is the
weighted average of the observations so far, NaN (none) while no observation
has been seen. -/
def ewmNanFrom (a : ℚ) (st : ℚ × ℚ) : List (Option ℚ) → List (Option ℚ)
  | [] => []
  | x :: rest =>
    let st2 := ewmStep a st x
    (if st2.2 = 0 then none else some (st2.1 / st2.2)) :: ewmNanFrom a st2 rest

/-- Pandas ewm mean from the empty initial state. -/
def ewmNan (a : ℚ) (xs : List (Option ℚ)) : List (Option ℚ) :=
  ewmNanFrom a (0, 0) xs

/-- The K series of the KD computation (src/data/fetcher.py line 194):
k = rsv.ewm(com=2).mean(), i.e. α = 1/(1+2) = 1/3. -/
def fetcherK (high low close : List ℚ) : List (Option ℚ) :=
  ewmNan (1 / 3) (rsvList high low close)

/-- The D series of the KD computation (src/data/fetcher.py line 195):
d = k.ewm(com=2).mean(). -/
def fetcherD (high low close : List ℚ) : List (Option ℚ) :=
  ewmNan (1 / 3) (fetcherK high low close)

/-- Pandas Series.ewm(span).mean() with adjust=True on a NaN-free series,
from a given (numerator, weight-sum) state. -/
def emaAdjFrom (a : ℚ) (st : ℚ × ℚ) : List ℚ → List ℚ
  | [] => []
  | x :: rest =>
    let num := (1 - a) * st.1 + x
    let den := (1 - a) * st.2 + 1
    (num / den) :: emaAdjFrom a (num, den) rest

/-- close.ewm(span=s).mean() as used by the per-stock API view
(src/app.py lines 178-179): α = 2/(s+1), adjust left at its default True. -/
def apiEma (s : ℕ) (xs : List ℚ) : List ℚ :=
  emaAdjFrom (2 / ((s : ℚ) + 1)) (0, 0) xs

/-- The macd array of the per-stock API view (src/app.py line 180):
ema12 − ema26 (fillna(0) is a no-op: the ewm outputs contain no NaN). -/
def apiMacd (closes : List ℚ) : List ℚ :=
  List.zipWith (fun x y => x - y) (apiEma 12 closes) (apiEma 26 closes)

/-- The k array of the per-stock API view (src/app.py line 192): it re-uses
the macd values verbatim (the isna fallback to 50 never fires because the
macd column holds no NaN). -/
def apiK (closes : List ℚ) : List ℚ :=
  apiMacd closes

/-- Python truthiness of an optional numeric dict entry: an absent or NULL
value and the number 0 are falsy. -/
def truthyQ : Option ℚ → Bool
  | none => false
  | some v => v != 0

/-- Python truthiness of an optional string dict entry: an absent or NULL
value and the empty string are falsy. -/
def truthyS : Option String → Bool
  | none => false
  | some s => s != ""

/-- Gregorian leap-year rule, as validated by datetime.strptime. -/
def isLeap (y : ℕ) : Bool :=
  y % 4 = 0 && (y % 100 != 0 || y % 400 = 0)

/-- Days in a month, as validated by datetime.strptime. -/
def daysInMonth (y m : ℕ) : ℕ :=
  if m = 2 then (if isLeap y then 29 else 28)
  else if m = 4 ∨ m = 6 ∨ m = 9 ∨ m = 11 then 30
  else 31

/-- Rata-die style day number of a calendar date (days since 0000-03-01),
the standard days-from-civil computation; differences of these numbers are
exactly the .days of a Python date subtraction. -/
def daysFromCivil (y m d : ℕ) : ℕ :=
  let y2 := if m ≤ 2 then y - 1 else y
  let era := y2 / 400
  let yoe := y2 % 400
  let mp := (m + 9) % 12
  let doy := (153 * mp + 2) / 5 + d - 1
  let doe := yoe * 365 + yoe / 4 - yoe / 100 + doy
  era * 146097 + doe

/-- Splitting a character list on the dash separator (the hyphen-splitting
that the year-month-day strptime format performs). -/
def splitDashes : List Char → List (List Char)
  | [] => [[]]
  | c :: rest =>
    match splitDashes rest with
    | [] => [[]]
    | g :: gs => if c = '-' then [] :: g :: gs else (c :: g) :: gs

/-- Decimal value of a digit string. -/
def digitsToNat (cs : List Char) : ℕ :=
  cs.foldl (fun acc c => acc * 10 + (c.toNat - 48)) 0

/-- Modelled from the documented behaviour of datetime.strptime(s, the
year-month-day format) in CPython: the year field must be exactly 4 digits,
month and day 1 or 2 digits, the whole string must be consumed, and the
triple must form a valid calendar date (year ≥ 1, month 1-12, day within the
month).  On success the date is returned as its day number. -/
def parseYmd (s : String) : Option ℕ :=
  match splitDashes s.toList with
  | [ys, ms, ds] =>
    if ys.length = 4 && ys.all Char.isDigit
        && 1 ≤ ms.length && ms.length ≤ 2 && ms.all Char.isDigit
        && 1 ≤ ds.length && ds.length ≤ 2 && ds.all Char.isDigit then
      let y := digitsToNat ys
      let m := digitsToNat ms
      let d := digitsToNat ds
      if 1 ≤ y ∧ 1 ≤ m ∧ m ≤ 12 ∧ 1 ≤ d ∧ d ≤ daysInMonth y m then
        some (daysFromCivil y m d)
      else none
    else none
  | _ => none

/-- The trade_data dict fields that TradeJournal.add_trade reads or writes
while deriving fields (src/data/trade_journal.py lines 113-193); the
remaining columns are inserted verbatim and are irrelevant here. -/
structure TradeData where
  buy_price : Option ℚ
  sell_price : Option ℚ
  shares : Option ℚ
  total_cost : Option ℚ
  total_revenue : Option ℚ
  profit_loss : Option ℚ
  profit_loss_pct : Option ℚ
  buy_date : Option String
  sell_date : Option String
  holding_days : Option ℤ
deriving Repr, DecidableEq

/-- First block of TradeJournal.add_trade (src/data/trade_journal.py lines
122-124): total_cost = buy_price × shares when both are truthy. -/
def deriveCost (td : TradeData) : TradeData :=
  if truthyQ td.buy_price && truthyQ td.shares then
    { td with total_cost := some (td.buy_price.getD 0 * td.shares.getD 0) }
  else td

/-- Second block of TradeJournal.add_trade (src/data/trade_journal.py lines
126-134): total_revenue = sell_price × shares when both are truthy; then
profit_loss and profit_loss_pct when the dict's total_cost (possibly set by
the first block) is truthy.  Setting total_revenue does not affect
total_cost, so the inner check is flattened here. -/
def deriveRevenue (td : TradeData) : TradeData :=
  if truthyQ td.sell_price && truthyQ td.shares then
    if truthyQ td.total_cost then
      { td with
        total_revenue := some (td.sell_price.getD 0 * td.shares.getD 0)
        profit_loss := some (td.sell_price.getD 0 * td.shares.getD 0 - td.total_cost.getD 0)
        profit_loss_pct :=
          some ((td.sell_price.getD 0 * td.shares.getD 0 - td.total_cost.getD 0)
            / td.total_cost.getD 0 * 100) }
    else { td with total_revenue := some (td.sell_price.getD 0 * td.shares.getD 0) }
  else td

/-- Third block of TradeJournal.add_trade (src/data/trade_journal.py lines
137-144): holding_days when both date strings are truthy and both parse; a
strptime failure is swallowed (except: pass) and leaves the field as it
was. -/
def deriveHolding (td : TradeData) : TradeData :=
  if truthyS td.buy_date && truthyS td.sell_date then
    match parseYmd (td.buy_date.getD ""), parseYmd (td.sell_date.getD "") with
    | some b, some s => { td with holding_days := some ((s : ℤ) - (b : ℤ)) }
    | _, _ => td
  else td

/-- The derived-field computation of TradeJournal.add_trade
(src/data/trade_journal.py lines 113-193): the three blocks run in sequence
on the trade_data dict, and the INSERT then stores exactly these fields, so
the result is the stored record. -/
def addTradeDerive (td : TradeData) : TradeData :=
  deriveHolding (deriveRevenue (deriveCost td))

/-- A row of the trades table as read back by get_trades: the columns that
analyze_performance and its helpers touch; every column exists in the dict
(sqlite Row), a NULL becoming None. -/
structure TradeRow where
  result : Option String
  profit_loss : Option ℚ
  profit_loss_pct : Option ℚ
  discipline : Option String
  entry_strategy_id : Option String
  buy_date : Option String
  sell_date : Option String
deriving Repr, DecidableEq

/-- The per-group statistics shape produced by _analyze_discipline and
_analyze_strategy (src/data/trade_journal.py lines 295-301, 323-329). -/
structure GroupStats where
  count : ℕ
  success_count : ℕ
  success_rate : ℚ
  avg_profit_loss_pct : ℚ
  total_profit_loss : ℚ
deriving Repr, DecidableEq

/-- The statistics computed over one group of trades by _analyze_discipline
and _analyze_strategy (their bodies are identical): success counted by exact
string equality with the literal success label, the average over a
null-as-zero sum, the total a null-as-zero sum. -/
def analyzeGroup (l : List TradeRow) : GroupStats :=
  let total := l.length
  let success := (l.filter (fun t => t.result = some "成功")).length
  { count := total
    success_count := success
    success_rate := if 0 < total then (success : ℚ) / (total : ℚ) * 100 else 0
    avg_profit_loss_pct :=
      if 0 < total then (l.map (fun t => t.profit_loss_pct.getD 0)).sum / (total : ℚ) else 0
    total_profit_loss := (l.map (fun t => t.profit_loss.getD 0)).sum }

/-- Keys in first-occurrence order, as a Python defaultdict accumulates
them. -/
def firstOccKeys (l : List (Option String)) : List (Option String) :=
  l.foldl (fun acc k => if k ∈ acc then acc else acc ++ [k]) []

/-- TradeJournal._analyze_discipline (src/data/trade_journal.py lines
277-303): group the trades by their discipline value (grouping by a
defaultdict preserves order, so a group is the filter by its key) and compute
the group statistics for each key. -/
def analyzeDiscipline (trades : List TradeRow) : List (Option String × GroupStats) :=
  (firstOccKeys (trades.map (fun t => t.discipline))).map
    (fun k => (k, analyzeGroup (trades.filter (fun t => t.discipline = k))))

/-- TradeJournal._analyze_strategy (src/data/trade_journal.py lines 305-331):
identical to the discipline analysis but keyed by entry_strategy_id. -/
def analyzeStrategy (trades : List TradeRow) : List (Option String × GroupStats) :=
  (firstOccKeys (trades.map (fun t => t.entry_strategy_id))).map
    (fun k => (k, analyzeGroup (trades.filter (fun t => t.entry_strategy_id = k))))

/-- The result dict of TradeJournal.analyze_performance
(src/data/trade_journal.py lines 234-275).  The empty-trades early return
carries no breakdown keys, modelled by none. -/
structure PerfStats where
  total_trades : ℕ
  success_count : ℕ
  failure_count : ℕ
  success_rate : ℚ
  total_profit_loss : ℚ
  avg_profit_loss_pct : ℚ
  discipline_analysis : Option (List (Option String × GroupStats))
  strategy_analysis : Option (List (Option String × GroupStats))
deriving Repr, DecidableEq

/-- TradeJournal.analyze_performance (src/data/trade_journal.py lines
234-275), taken after the get_trades call: the empty list returns the
all-zero dict before any division; otherwise counts, rates and the
truthiness-filtered sums are computed and the two breakdowns attached. -/
def analyze_performance (trades : List TradeRow) : PerfStats :=
  if trades = [] then
    { total_trades := 0, success_count := 0, failure_count := 0, success_rate := 0,
      total_profit_loss := 0, avg_profit_loss_pct := 0,
      discipline_analysis := none, strategy_analysis := none }
  else
    let total := trades.length
    let success := (trades.filter (fun t => t.result = some "成功")).length
    let failure := (trades.filter (fun t => t.result = some "失敗")).length
    let total_pl :=
      ((trades.filter (fun t => truthyQ t.profit_loss)).map
        (fun t => t.profit_loss.getD 0)).sum
    let sum_pl_pct :=
      ((trades.filter (fun t => truthyQ t.profit_loss_pct)).map
        (fun t => t.profit_loss_pct.getD 0)).sum
    { total_trades := total
      success_count := success
      failure_count := failure
      success_rate := if 0 < total then (success : ℚ) / (total : ℚ) * 100 else 0
      total_profit_loss := total_pl
      avg_profit_loss_pct := if 0 < total then sum_pl_pct / (total : ℚ) else 0
      discipline_analysis := some (analyzeDiscipline trades)
      strategy_analysis := some (analyzeStrategy trades) }

/-- The year filter of get_trades (src/data/trade_journal.py lines 209-215)
for the analysis path (no 買入 type filter): buy_date LIKE year% OR sell_date
LIKE year%; a NULL date never matches.  The ORDER BY clause is omitted: the
analysis is order-insensitive. -/
def yearMatch (year : ℕ) (t : TradeRow) : Bool :=
  (t.buy_date.getD "").startsWith (toString year)
    || (t.sell_date.getD "").startsWith (toString year)

/-- get_trades restricted to the year filter used by analyze_performance. -/
def getTradesYear (year : ℕ) (trades : List TradeRow) : List TradeRow :=
  trades.filter (yearMatch year)

/-- The first sample trade of the api_sample_generate route (src/app.py line
365): 台積電 bought 2025-01-10 at 1050 for 1000 shares, sold 2025-03-15 at
1180; the analysis fields it does not set are absent. -/
def sampleTrade : TradeData :=
  { buy_price := some 1050, sell_price := some 1180, shares := some 1000,
    total_cost := none, total_revenue := none, profit_loss := none,
    profit_loss_pct := none, buy_date := some "2025-01-10",
    sell_date := some "2025-03-15", holding_days := none }

/-- Two demonstration trade rows: one successful 完全遵守 trade with recorded
profit, one failed trade with NULL analytics fields. -/
def demoTrades : List TradeRow :=
  [{ result := some "成功", profit_loss := some 100, profit_loss_pct := some 10,
     discipline := some "完全遵守", entry_strategy_id := some "STG001",
     buy_date := some "2025-01-10", sell_date := some "2025-03-15" },
   { result := some "失敗", profit_loss := none, profit_loss_pct := none,
     discipline := none, entry_strategy_id := none,
     buy_date := some "2024-01-01", sell_date := none }]

/-- C1: for a stored position, calculate_profit_loss returns
cost_total = cost × shares, current_total = price × shares,
profit_loss = current_total − cost_total, profit_loss_pct =
profit_loss / cost_total × 100 when cost_total > 0 and 0 when
cost_total ≤ 0; for an unknown code it returns None. -/
theorem c1_calculate_profit_loss_spec (store : String → Option Position)
    (code : String) (price : ℚ) :
    (store code = none → calculate_profit_loss store code price = none) ∧
    (∀ pos, store code = some pos →
      calculate_profit_loss store code price = some (computePL code pos price) ∧
      (computePL code pos price).cost_total = pos.cost * pos.shares ∧
      (computePL code pos price).current_total = price * pos.shares ∧
      (computePL code pos price).profit_loss =
        price * pos.shares - pos.cost * pos.shares ∧
      (pos.cost * pos.shares > 0 →
        (computePL code pos price).profit_loss_pct =
          (price * pos.shares - pos.cost * pos.shares) / (pos.cost * pos.shares) * 100) ∧
      (pos.cost * pos.shares ≤ 0 → (computePL code pos price).profit_loss_pct = 0)) := by
  constructor
  · intro h
    simp [calculate_profit_loss, h]
  · intro pos h
    refine ⟨by simp [calculate_profit_loss, h], rfl, rfl, rfl, ?_, ?_⟩
    · intro hpos
      simp [computePL, hpos]
    · intro hle
      simp [computePL, not_lt.mpr hle]

/-- C1 witness: the demo position has cost 100 and 0 shares, so cost_total is
0 and the percentage guard yields 0; an unknown code yields None. -/
theorem c1_witness :
    calculate_profit_loss demoStore "9999" 50 = none ∧
    calculate_profit_loss demoStore "2330" 50 =
      some (computePL "2330"
        { name := "台積電", cost := 100, shares := 0, stop_loss := 0, stop_profit := 0 } 50) ∧
    (computePL "2330"
      { name := "台積電", cost := 100, shares := 0, stop_loss := 0, stop_profit := 0 } 50).profit_loss_pct = 0 := by
  have h9 := (c1_calculate_profit_loss_spec demoStore "9999" 50).1 (by decide)
  have h2 := (c1_calculate_profit_loss_spec demoStore "2330" 50).2
    { name := "台積電", cost := 100, shares := 0, stop_loss := 0, stop_profit := 0 } (by decide)
  exact ⟨h9, h2.1, h2.2.2.2.2.2 (by norm_num)⟩

/-- C2 counterexample: with stop_loss = 0 (an unset stop), current_price = 0
and pct = 10 the price is ≤ stop_loss and pct ≥ 10, yet get_strategy skips the
stop-loss band (Python truthiness guard) and returns the strong-gain label. -/
theorem c2_counterexample :
    (0 : ℚ) ≤ 0 ∧ (10 : ℚ) ≥ 10 ∧
    get_strategy { profit_loss_pct := 10, current_price := 0, stop_loss := 0, stop_profit := 0 }
      = "🎯 漲多" ∧
    get_strategy { profit_loss_pct := 10, current_price := 0, stop_loss := 0, stop_profit := 0 }
      ≠ "🛑 觸及停損" := by
  refine ⟨le_refl _, le_refl _, ?_, ?_⟩ <;> simp [get_strategy]

/-- C2 amended: get_strategy is total (always one of the seven labels) and
evaluates its bands in the fixed order, where each stop band additionally
requires its stop value to be nonzero (set): nonzero stop_loss with
price ≤ stop_loss → stop-loss label (even when pct ≥ 10); otherwise nonzero
stop_profit with price ≥ stop_profit → stop-profit label; otherwise the
percentage bands in order 10 / 5 / 0 / −5. -/
theorem c2_get_strategy_bands (pl : StrategyInput) :
    get_strategy pl ∈ strategyLabels ∧
    (pl.stop_loss ≠ 0 → pl.current_price ≤ pl.stop_loss →
      get_strategy pl = "🛑 觸及停損") ∧
    (¬(pl.stop_loss ≠ 0 ∧ pl.current_price ≤ pl.stop_loss) →
      pl.stop_profit ≠ 0 → pl.current_price ≥ pl.stop_profit →
      get_strategy pl = "✅ 觸及停利") ∧
    (¬(pl.stop_loss ≠ 0 ∧ pl.current_price ≤ pl.stop_loss) →
      ¬(pl.stop_profit ≠ 0 ∧ pl.current_price ≥ pl.stop_profit) →
      ((pl.profit_loss_pct ≥ 10 → get_strategy pl = "🎯 漲多") ∧
       (pl.profit_loss_pct < 10 → pl.profit_loss_pct ≥ 5 → get_strategy pl = "✅ 續抱") ∧
       (pl.profit_loss_pct < 5 → pl.profit_loss_pct ≥ 0 → get_strategy pl = "🔸 續抱等解套") ∧
       (pl.profit_loss_pct < 0 → pl.profit_loss_pct ≥ -5 → get_strategy pl = "⚠️ 留意") ∧
       (pl.profit_loss_pct < -5 → get_strategy pl = "🛑 建議停損"))) := by
  refine ⟨?_, ?_, ?_, ?_⟩
  · unfold get_strategy strategyLabels
    split_ifs <;> simp
  · intro hsl hle
    unfold get_strategy
    rw [if_pos ⟨hsl, hle⟩]
  · intro h1 hsp hge
    unfold get_strategy
    rw [if_neg h1, if_pos ⟨hsp, hge⟩]
  · intro h1 h2
    unfold get_strategy
    rw [if_neg h1, if_neg h2]
    refine ⟨?_, ?_, ?_, ?_, ?_⟩
    · intro h10
      rw [if_pos h10]
    · intro hlt h5
      rw [if_neg (not_le.mpr hlt), if_pos h5]
    · intro hlt h0
      rw [if_neg (by exact not_le.mpr (by linarith)), if_neg (not_le.mpr hlt), if_pos h0]
    · intro hlt hm5
      rw [if_neg (by exact not_le.mpr (by linarith)),
        if_neg (by exact not_le.mpr (by linarith)), if_neg (not_le.mpr hlt), if_pos hm5]
    · intro hlt
      rw [if_neg (by exact not_le.mpr (by linarith)),
        if_neg (by exact not_le.mpr (by linarith)),
        if_neg (by exact not_le.mpr (by linarith)), if_neg (not_le.mpr hlt)]

/-- C2 witness: a position with a set stop_loss 90, price 80 at it and a
pct of 12 reports the stop-loss label, not the strong-gain label; totality
holds at this input. -/
theorem c2_witness :
    get_strategy { profit_loss_pct := 12, current_price := 80, stop_loss := 90, stop_profit := 0 }
      ∈ strategyLabels ∧
    get_strategy { profit_loss_pct := 12, current_price := 80, stop_loss := 90, stop_profit := 0 }
      = "🛑 觸及停損" := by
  have h := c2_get_strategy_bands
    { profit_loss_pct := 12, current_price := 80, stop_loss := 90, stop_profit := 0 }
  exact ⟨h.1, h.2.1 (by norm_num) (by norm_num)⟩

/-- C10: check_alert returns None both when the code has no stored position
and when the position exists but neither alert condition holds, so a caller
cannot distinguish the two; any non-None result carries a non-empty alerts
list. -/
theorem c10_check_alert_none_ambiguity (store : String → Option Position)
    (code : String) (price : ℚ) (th : Thresholds) :
    (store code = none → check_alert store code price th = none) ∧
    (∀ pos, store code = some pos →
      ¬((computePL code pos price).profit_loss_pct ≤ -th.loss_threshold) →
      ¬((computePL code pos price).profit_loss_pct ≥ th.gain_threshold) →
      check_alert store code price th = none) ∧
    (∀ a, check_alert store code price th = some a → a.alerts ≠ []) := by
  refine ⟨?_, ?_, ?_⟩
  · intro h
    simp [check_alert, calculate_profit_loss, h]
  · intro pos h hl hg
    simp [check_alert, calculate_profit_loss, alertsOf, h, hl, hg]
  · intro a ha
    unfold check_alert at ha
    split at ha
    · exact absurd ha (by simp)
    · split_ifs at ha with he
      injection ha with h
      rw [← h]
      exact he

/-- C10 witness: with the demo store (pct 0 at the stored position under
thresholds 5/10), the unknown code and the no-alert position both yield None,
and the loss alert fires once the loss threshold is 0 with a non-empty
alerts list. -/
theorem c10_witness :
    check_alert demoStore "9999" 50 { loss_threshold := 5, gain_threshold := 10 } = none ∧
    check_alert demoStore "2330" 50 { loss_threshold := 5, gain_threshold := 10 } = none ∧
    (∀ a, check_alert demoStore "2330" 50 { loss_threshold := 0, gain_threshold := 10 } = some a →
      a.alerts ≠ []) := by
  refine ⟨(c10_check_alert_none_ambiguity demoStore "9999" 50 _).1 (by decide),
    (c10_check_alert_none_ambiguity demoStore "2330" 50 _).2.1
      { name := "台積電", cost := 100, shares := 0, stop_loss := 0, stop_profit := 0 }
      (by decide) (by norm_num [computePL]) (by norm_num [computePL]),
    (c10_check_alert_none_ambiguity demoStore "2330" 50 _).2.2⟩

/-- C9: position update/remove on an unknown code are no-ops (shown here on a
one-row table and the unknown code 9999), but the trade routes call
update_trade and delete_trade, neither of which exists on TradeJournal, so
every trade update/delete raises AttributeError instead of completing as a
no-op or a "not found" result. -/
theorem c9_unknown_id_handling :
    pmUpdate [("2330", { name := "台積電", cost := 100, shares := 0, stop_loss := 0, stop_profit := 0 })]
        "9999" { name := "X", cost := 1, shares := 1, stop_loss := 0, stop_profit := 0 }
      = [("2330", { name := "台積電", cost := 100, shares := 0, stop_loss := 0, stop_profit := 0 })] ∧
    pmRemove [("2330", { name := "台積電", cost := 100, shares := 0, stop_loss := 0, stop_profit := 0 })]
        "9999"
      = [("2330", { name := "台積電", cost := 100, shares := 0, stop_loss := 0, stop_profit := 0 })] ∧
    tradeJournalHasMethod "add_trade" = true ∧
    tradeJournalHasMethod "update_trade" = false ∧
    tradeJournalHasMethod "delete_trade" = false := by
  refine ⟨by simp [pmUpdate], by simp [pmRemove], by decide, by decide, by decide⟩

/-- Indexing a map over List.range. -/
theorem getD_map_range {α : Type} (f : ℕ → α) (m i : ℕ) (hi : i < m) (d : α) :
    ((List.range m).map f).getD i d = f i := by
  rw [List.getD_eq_getElem?_getD, List.getElem?_map, List.getElem?_range hi]
  rfl

/-- Pointwise description of rollingMean. -/
theorem rollingMean_getD (xs : List ℚ) (n i : ℕ) (hi : i < xs.length) :
    (rollingMean xs n).getD i none =
      if i + 1 < n then none
      else some (((xs.take (i + 1)).drop (i + 1 - n)).sum / n) := by
  unfold rollingMean
  exact getD_map_range _ _ _ hi _

/-- The trailing window of a prefix is a trailing-n slice of the list. -/
theorem window_take_drop (xs : List ℚ) (i n : ℕ) (h : n ≤ i + 1) :
    (xs.take (i + 1)).drop (i + 1 - n) = (xs.drop (i + 1 - n)).take n := by
  rw [List.drop_take]
  congr 1
  omega

/-- rollingMean preserves length. -/
theorem rollingMean_length (xs : List ℚ) (n : ℕ) :
    (rollingMean xs n).length = xs.length := by
  simp [rollingMean]

/-- Pointwise description of the zero-filled API moving-average arrays. -/
theorem apiMaArr_getD (closes : List ℚ) (n i : ℕ) (hi : i < closes.length) :
    (apiMaArr closes n).getD i none =
      some (((rollingMean closes n).getD i none).getD 0) := by
  unfold apiMaArr
  have hl : i < (rollingMean closes n).length := by
    rw [rollingMean_length]
    exact hi
  rw [List.getD_eq_getElem?_getD, List.getElem?_map, List.getElem?_eq_getElem hl,
    List.getD_eq_getElem?_getD, List.getElem?_eq_getElem hl]
  rfl

/-- C6 counterexample: on the five-bar series 1..5 the api ma5 array is
zero-filled, not null, before the window fills: its first four entries are
the number 0 (and 0 is emitted, not the null marker), while the claim
requires null there. -/
theorem c6_counterexample :
    apiMaArr [1, 2, 3, 4, 5] 5 = [some 0, some 0, some 0, some 0, some 3] ∧
    (apiMaArr [1, 2, 3, 4, 5] 5).getD 0 none ≠ none := by
  have h : apiMaArr [1, 2, 3, 4, 5] 5 = [some 0, some 0, some 0, some 0, some 3] := by
    norm_num [apiMaArr, rollingMean, List.range_succ]
  refine ⟨h, ?_⟩
  rw [h]
  simp

/-- C6 amended: in the per-stock API arrays the positions before the window
fills hold 0 (zero-filled), not null, and from index n−1 on they hold the
arithmetic mean of the n trailing closes; the fetcher's last-bar value is
null while the series is shorter than n and otherwise the mean of the last n
closes. -/
theorem c6_moving_average (closes : List ℚ) (n : ℕ) (hn : 1 ≤ n) :
    (∀ i, i < closes.length →
      (i < n - 1 → (apiMaArr closes n).getD i none = some 0) ∧
      (n - 1 ≤ i → (apiMaArr closes n).getD i none =
        some (((closes.drop (i + 1 - n)).take n).sum / n))) ∧
    (closes.length < n → fetcherMaLast closes n = none) ∧
    (n ≤ closes.length → fetcherMaLast closes n =
      some (((closes.drop (closes.length - n)).take n).sum / n)) := by
  refine ⟨?_, ?_, ?_⟩
  · intro i hi
    constructor
    · intro hlt
      rw [apiMaArr_getD closes n i hi, rollingMean_getD closes n i hi,
        if_pos (by omega)]
      rfl
    · intro hge
      rw [apiMaArr_getD closes n i hi, rollingMean_getD closes n i hi,
        if_neg (by omega), window_take_drop closes i n (by omega)]
      rfl
  · intro hshort
    unfold fetcherMaLast
    rcases Nat.eq_zero_or_pos closes.length with hz | hpos
    · rw [List.getD_eq_getElem?_getD, List.getElem?_eq_none]
      · rfl
      · rw [rollingMean_length, hz]
    · have hi : closes.length - 1 < closes.length := by omega
      rw [rollingMean_getD closes n _ hi, if_pos (by omega)]
  · intro hle
    have hpos : 0 < closes.length := by omega
    have hi : closes.length - 1 < closes.length := by omega
    unfold fetcherMaLast
    rw [rollingMean_getD closes n _ hi, if_neg (by omega),
      window_take_drop closes _ n (by omega)]
    have h1 : closes.length - 1 + 1 - n = closes.length - n := by omega
    rw [h1]

/-- C6 witness: on the six-bar series 1..6 with n = 5, the api array holds 0
at index 0 (window unfilled) and the mean 4 of bars 2..6 at index 5; the
fetcher's last ma5 is the same mean. -/
theorem c6_witness :
    (apiMaArr [1, 2, 3, 4, 5, 6] 5).getD 0 none = some 0 ∧
    (apiMaArr [1, 2, 3, 4, 5, 6] 5).getD 5 none =
      some (((([1, 2, 3, 4, 5, 6] : List ℚ).drop 1).take 5).sum / 5) ∧
    fetcherMaLast [1, 2, 3, 4, 5, 6] 5 =
      some (((([1, 2, 3, 4, 5, 6] : List ℚ).drop 1).take 5).sum / 5) := by
  have h := c6_moving_average [1, 2, 3, 4, 5, 6] 5 (by norm_num)
  exact ⟨(h.1 0 (by norm_num)).1 (by norm_num),
    (h.1 5 (by norm_num)).2 (by norm_num),
    h.2.2 (by norm_num)⟩

/-- The gain series has the length of the close series. -/
theorem gainsOf_length (xs : List ℚ) : (gainsOf xs).length = xs.length := by
  simp [gainsOf]

/-- The loss series has the length of the close series. -/
theorem lossesOf_length (xs : List ℚ) : (lossesOf xs).length = xs.length := by
  simp [lossesOf]

/-- Every entry of the gain series is nonnegative. -/
theorem gainsOf_nonneg (xs : List ℚ) : ∀ x ∈ gainsOf xs, 0 ≤ x := by
  intro x hx
  unfold gainsOf at hx
  rcases List.mem_map.mp hx with ⟨i, _, rfl⟩
  split_ifs with h1 h2
  · exact le_refl 0
  · exact le_of_lt h2
  · exact le_refl 0

/-- Every entry of the loss series is nonnegative. -/
theorem lossesOf_nonneg (xs : List ℚ) : ∀ x ∈ lossesOf xs, 0 ≤ x := by
  intro x hx
  unfold lossesOf at hx
  rcases List.mem_map.mp hx with ⟨i, _, rfl⟩
  split_ifs with h1 h2
  · exact le_refl 0
  · linarith
  · exact le_refl 0

/-- A defined rolling mean of a nonnegative series is nonnegative. -/
theorem rollingMean_some_nonneg (xs : List ℚ) (n i : ℕ)
    (hx : ∀ x ∈ xs, 0 ≤ x) (v : ℚ)
    (hv : (rollingMean xs n).getD i none = some v) : 0 ≤ v := by
  by_cases hi : i < xs.length
  · rw [rollingMean_getD xs n i hi] at hv
    split_ifs at hv with h
    have hv2 := Option.some.inj hv
    rw [← hv2]
    apply div_nonneg
    · apply List.sum_nonneg
      intro x hxm
      exact hx x (List.mem_of_mem_take (List.mem_of_mem_drop hxm))
    · exact_mod_cast Nat.zero_le n
  · rw [List.getD_eq_getElem?_getD,
      List.getElem?_eq_none (by rw [rollingMean_length]; omega)] at hv
    exact absurd hv (by simp)

/-- Bound of the RSI formula for a nonnegative rs with positive loss. -/
theorem rsiVal_bounds (g l : ℚ) (hg : 0 ≤ g) (hl : 0 < l) :
    0 ≤ 100 - 100 / (1 + g / l) ∧ 100 - 100 / (1 + g / l) ≤ 100 := by
  have hrs : 0 ≤ g / l := div_nonneg hg hl.le
  have h1 : (0 : ℚ) < 1 + g / l := by linarith
  constructor
  · have h2 : 100 / (1 + g / l) ≤ 100 := by
      rw [div_le_iff₀ h1]
      nlinarith
    linarith
  · have h2 : 0 < 100 / (1 + g / l) := by positivity
    linarith

/-- C7 counterexample: the fetcher's RSI is None, not 50, on a one-bar series
(unfilled window), and also None on the fifteen-bar strictly rising series
(filled window, zero average loss): there the code replaces the zero loss by
NaN, not by a positive epsilon, so the output is null instead of a defined
value near 100. -/
theorem c7_counterexample :
    fetcherRsiLast [5] = none ∧
    fetcherRsiLast [1, 2, 3, 4, 5, 6, 7, 8, 9, 10, 11, 12, 13, 14, 15] = none ∧
    (14 : ℕ) ≤ ([1, 2, 3, 4, 5, 6, 7, 8, 9, 10, 11, 12, 13, 14, 15] : List ℚ).length := by
  refine ⟨?_, ?_, by norm_num⟩
  · norm_num [fetcherRsiLast, rollingMean, gainsOf, lossesOf, List.range_succ]
  · norm_num [fetcherRsiLast, rollingMean, gainsOf, lossesOf, List.range_succ]

/-- C7 amended: every RSI value the system produces is in [0,100] where
defined.  In the per-stock API series every position is defined: the
positions with an unfilled 14-period window are 50 and a zero average loss is
replaced by the epsilon 0.0001.  In the fetcher, a defined value is likewise
in [0,100], but an unfilled window or a zero average loss yields null rather
than 50 or an epsilon-guarded value. -/
theorem c7_rsi_bounds (xs : List ℚ) :
    (∀ i, i < xs.length →
      (0 ≤ (apiRsi xs).getD i 50 ∧ (apiRsi xs).getD i 50 ≤ 100) ∧
      (i < 13 → (apiRsi xs).getD i 50 = 50)) ∧
    (∀ r, fetcherRsiLast xs = some r → 0 ≤ r ∧ r ≤ 100) := by
  constructor
  · intro i hi
    have hmain : (0 ≤ (apiRsi xs).getD i 50 ∧ (apiRsi xs).getD i 50 ≤ 100) ∧
        ((rollingMean (gainsOf xs) 14).getD i none = none →
          (apiRsi xs).getD i 50 = 50) := by
      unfold apiRsi
      rw [getD_map_range _ _ _ hi]
      cases hg : (rollingMean (gainsOf xs) 14).getD i none with
      | none =>
        cases hl : (rollingMean (lossesOf xs) 14).getD i none with
        | none => exact ⟨show (0 : ℚ) ≤ 50 ∧ (50 : ℚ) ≤ 100 by norm_num, fun _ => rfl⟩
        | some l0 => exact ⟨show (0 : ℚ) ≤ 50 ∧ (50 : ℚ) ≤ 100 by norm_num, fun _ => rfl⟩
      | some g =>
        cases hl : (rollingMean (lossesOf xs) 14).getD i none with
        | none =>
          exact ⟨show (0 : ℚ) ≤ 50 ∧ (50 : ℚ) ≤ 100 by norm_num, fun hc => by simp at hc⟩
        | some l0 =>
          have hg0 : 0 ≤ g := rollingMean_some_nonneg _ 14 i (gainsOf_nonneg xs) g hg
          have hl0 : 0 ≤ l0 := rollingMean_some_nonneg _ 14 i (lossesOf_nonneg xs) l0 hl
          have hlpos : 0 < (if l0 = 0 then (1 : ℚ) / 10000 else l0) := by
            split_ifs with hz
            · norm_num
            · exact lt_of_le_of_ne hl0 (Ne.symm hz)
          refine ⟨?_, fun hc => by simp at hc⟩
          show 0 ≤ 100 - 100 / (1 + g / (if l0 = 0 then (1 : ℚ) / 10000 else l0)) ∧
            100 - 100 / (1 + g / (if l0 = 0 then (1 : ℚ) / 10000 else l0)) ≤ 100
          exact rsiVal_bounds g _ hg0 hlpos
    refine ⟨hmain.1, ?_⟩
    intro h13
    apply hmain.2
    have hlen : i < (gainsOf xs).length := by rw [gainsOf_length]; exact hi
    rw [rollingMean_getD _ 14 i hlen, if_pos (by omega)]
  · intro r hr
    unfold fetcherRsiLast at hr
    cases hg : (rollingMean (gainsOf xs) 14).getD (xs.length - 1) none with
    | none => rw [hg] at hr; exact absurd hr (by simp)
    | some g =>
      cases hl : (rollingMean (lossesOf xs) 14).getD (xs.length - 1) none with
      | none => rw [hg, hl] at hr; exact absurd hr (by simp)
      | some l =>
        rw [hg, hl] at hr
        simp only at hr
        split_ifs at hr with hz
        have hg0 : 0 ≤ g := rollingMean_some_nonneg _ 14 _ (gainsOf_nonneg xs) g hg
        have hl0 : 0 ≤ l := rollingMean_some_nonneg _ 14 _ (lossesOf_nonneg xs) l hl
        have hlpos : 0 < l := lt_of_le_of_ne hl0 (Ne.symm hz)
        have hv := Option.some.inj hr
        rw [← hv]
        exact rsiVal_bounds g l hg0 hlpos

/-- C7 witness: on the fifteen-bar rising series the API rsi is 50 at index 0
(window unfilled) and lies in [0,100] at index 14 (where the zero average
loss is epsilon-guarded); the fetcher bound holds vacuously there (its value
is null). -/
theorem c7_witness :
    ((apiRsi [1, 2, 3, 4, 5, 6, 7, 8, 9, 10, 11, 12, 13, 14, 15]).getD 0 50 = 50) ∧
    (0 ≤ (apiRsi [1, 2, 3, 4, 5, 6, 7, 8, 9, 10, 11, 12, 13, 14, 15]).getD 14 50 ∧
      (apiRsi [1, 2, 3, 4, 5, 6, 7, 8, 9, 10, 11, 12, 13, 14, 15]).getD 14 50 ≤ 100) := by
  have h := c7_rsi_bounds [1, 2, 3, 4, 5, 6, 7, 8, 9, 10, 11, 12, 13, 14, 15]
  exact ⟨(h.1 0 (by norm_num)).2 (by norm_num), (h.1 14 (by norm_num)).1⟩

/-- listMin is a lower bound of the list. -/
theorem listMin_le_of_mem : ∀ (l : List ℚ), ∀ x ∈ l, listMin l ≤ x
  | [], x, hx => absurd hx (List.not_mem_nil x)
  | [y], x, hx => by
    rw [List.mem_singleton] at hx
    rw [hx]
    exact le_refl _
  | y :: z :: rest, x, hx => by
    rcases List.mem_cons.mp hx with h | h
    · rw [h]
      exact min_le_left _ _
    · exact le_trans (min_le_right _ _) (listMin_le_of_mem (z :: rest) x h)

/-- listMax is an upper bound of the list. -/
theorem le_listMax_of_mem : ∀ (l : List ℚ), ∀ x ∈ l, x ≤ listMax l
  | [], x, hx => absurd hx (List.not_mem_nil x)
  | [y], x, hx => by
    rw [List.mem_singleton] at hx
    rw [hx]
    exact le_refl _
  | y :: z :: rest, x, hx => by
    rcases List.mem_cons.mp hx with h | h
    · rw [h]
      exact le_max_left _ _
    · exact le_trans (le_listMax_of_mem (z :: rest) x h) (le_max_right _ _)

/-- The i-th element of a series belongs to the trailing window ending at i. -/
theorem getD_mem_window (xs : List ℚ) (i n : ℕ) (hi : i < xs.length) (hn : 1 ≤ n) :
    xs.getD i 0 ∈ (xs.take (i + 1)).drop (i + 1 - n) := by
  have hsome : ((xs.take (i + 1)).drop (i + 1 - n))[i - (i + 1 - n)]? = some (xs.getD i 0) := by
    rw [List.getElem?_drop]
    have h1 : i + 1 - n + (i - (i + 1 - n)) = i := by omega
    rw [h1, List.getElem?_take, if_pos (by omega : i < i + 1),
      List.getElem?_eq_getElem hi, List.getD_eq_getElem]
  exact List.getElem?_mem hsome

/-- Pointwise description of rollingMin. -/
theorem rollingMin_getD (xs : List ℚ) (n i : ℕ) (hi : i < xs.length) :
    (rollingMin xs n).getD i none =
      if i + 1 < n then none
      else some (listMin ((xs.take (i + 1)).drop (i + 1 - n))) := by
  unfold rollingMin
  exact getD_map_range _ _ _ hi _

/-- Pointwise description of rollingMax. -/
theorem rollingMax_getD (xs : List ℚ) (n i : ℕ) (hi : i < xs.length) :
    (rollingMax xs n).getD i none =
      if i + 1 < n then none
      else some (listMax ((xs.take (i + 1)).drop (i + 1 - n))) := by
  unfold rollingMax
  exact getD_map_range _ _ _ hi _

/-- Every defined RSV value is in [0,100] when each bar has
low ≤ close ≤ high. -/
theorem rsvList_bounds (high low close : List ℚ)
    (hh : high.length = close.length) (hl : low.length = close.length)
    (hlc : ∀ i, i < close.length →
      low.getD i 0 ≤ close.getD i 0 ∧ close.getD i 0 ≤ high.getD i 0) :
    ∀ v : ℚ, some v ∈ rsvList high low close → 0 ≤ v ∧ v ≤ 100 := by
  intro v hv
  unfold rsvList at hv
  rcases List.mem_map.mp hv with ⟨i, hir, heq⟩
  have hi : i < close.length := List.mem_range.mp hir
  have hih : i < high.length := by omega
  have hil : i < low.length := by omega
  cases hM : (rollingMax high 9).getD i none with
  | none =>
    cases hm : (rollingMin low 9).getD i none with
    | none => rw [hM, hm] at heq; exact absurd heq (by simp)
    | some lmv => rw [hM, hm] at heq; exact absurd heq (by simp)
  | some hMv =>
    cases hm : (rollingMin low 9).getD i none with
    | none => rw [hM, hm] at heq; exact absurd heq (by simp)
    | some lmv =>
      rw [hM, hm] at heq
      simp only at heq
      split_ifs at heq with hz
      have hveq := Option.some.inj heq
      rw [rollingMax_getD high 9 i hih] at hM
      rw [rollingMin_getD low 9 i hil] at hm
      split_ifs at hM hm with h9
      have hMv_eq := Option.some.inj hM
      have hlm_eq := Option.some.inj hm
      have hmaxb : high.getD i 0 ≤ hMv := by
        rw [← hMv_eq]
        exact le_listMax_of_mem _ _ (getD_mem_window high i 9 hih (by norm_num))
      have hminb : lmv ≤ low.getD i 0 := by
        rw [← hlm_eq]
        exact listMin_le_of_mem _ _ (getD_mem_window low i 9 hil (by norm_num))
      rcases hlc i hi with ⟨hlc1, hlc2⟩
      have hle : lmv ≤ close.getD i 0 := by linarith
      have hge : close.getD i 0 ≤ hMv := by linarith
      have hdpos : 0 < hMv - lmv := by
        rcases lt_or_eq_of_le (by linarith : lmv ≤ hMv) with h | h
        · linarith
        · exact absurd (by rw [h]; ring) hz
      rw [← hveq]
      constructor
      · apply mul_nonneg (div_nonneg (by linarith) hdpos.le) (by norm_num)
      · have hratio : (close.getD i 0 - lmv) / (hMv - lmv) ≤ 1 :=
          (div_le_one hdpos).mpr (by linarith)
        nlinarith [div_nonneg (by linarith : (0:ℚ) ≤ close.getD i 0 - lmv) hdpos.le]

/-- The pandas ewm mean stays within any interval containing every defined
observation, given a nonnegative decay factor and a state already inside the
interval. -/
theorem ewmNanFrom_bounds (a lo hi : ℚ) (ha : 0 ≤ 1 - a) :
    ∀ (xs : List (Option ℚ)) (st : ℚ × ℚ),
      0 ≤ st.2 → lo * st.2 ≤ st.1 → st.1 ≤ hi * st.2 →
      (∀ v : ℚ, some v ∈ xs → lo ≤ v ∧ v ≤ hi) →
      ∀ v : ℚ, some v ∈ ewmNanFrom a st xs → lo ≤ v ∧ v ≤ hi := by
  intro xs
  induction xs with
  | nil =>
    intro st _ _ _ _ v hv
    simp [ewmNanFrom] at hv
  | cons x rest ih =>
    intro st hden hlo hhi hmem v hv
    have hst : 0 ≤ (ewmStep a st x).2 ∧ lo * (ewmStep a st x).2 ≤ (ewmStep a st x).1 ∧
        (ewmStep a st x).1 ≤ hi * (ewmStep a st x).2 := by
      cases x with
      | none =>
        simp only [ewmStep]
        exact ⟨mul_nonneg ha hden,
          by nlinarith [mul_le_mul_of_nonneg_left hlo ha],
          by nlinarith [mul_le_mul_of_nonneg_left hhi ha]⟩
      | some w =>
        have hw := hmem w (by simp)
        simp only [ewmStep]
        exact ⟨by nlinarith [mul_nonneg ha hden],
          by nlinarith [mul_le_mul_of_nonneg_left hlo ha, hw.1],
          by nlinarith [mul_le_mul_of_nonneg_left hhi ha, hw.2]⟩
    rw [ewmNanFrom] at hv
    rcases List.mem_cons.mp hv with hhead | htail
    · split_ifs at hhead with hz
      have hpos : 0 < (ewmStep a st x).2 := lt_of_le_of_ne hst.1 (Ne.symm hz)
      have hv2 := Option.some.inj hhead
      rw [hv2]
      constructor
      · exact (le_div_iff₀ hpos).mpr hst.2.1
      · exact (div_le_iff₀ hpos).mpr (by nlinarith [hst.2.2])
    · exact ih (ewmStep a st x) hst.1 hst.2.1 hst.2.2
        (fun w hw => hmem w (List.mem_cons_of_mem _ hw)) v htail

/-- C8 amended: in the fetcher's genuine KD computation every K and D value
is null or in [0,100] (for bars with low ≤ close ≤ high), and a zero RSV
denominator yields null, not an exception; but the k/d arrays of the
per-stock API view do not satisfy the claim: they re-use the MACD/signal
series, which is not confined to [0,100]. -/
theorem c8_kd_bounds (high low close : List ℚ)
    (hh : high.length = close.length) (hl : low.length = close.length)
    (hlc : ∀ i, i < close.length →
      low.getD i 0 ≤ close.getD i 0 ∧ close.getD i 0 ≤ high.getD i 0) :
    (∀ v : ℚ, some v ∈ fetcherK high low close → 0 ≤ v ∧ v ≤ 100) ∧
    (∀ v : ℚ, some v ∈ fetcherD high low close → 0 ≤ v ∧ v ≤ 100) ∧
    (∀ i, i < close.length → ∀ hM lm : ℚ,
      (rollingMax high 9).getD i none = some hM →
      (rollingMin low 9).getD i none = some lm →
      hM - lm = 0 →
      (rsvList high low close).getD i none = none) := by
  have hK : ∀ v : ℚ, some v ∈ fetcherK high low close → 0 ≤ v ∧ v ≤ 100 := by
    intro v hv
    exact ewmNanFrom_bounds (1 / 3) 0 100 (by norm_num) _ (0, 0)
      (le_refl 0) (by norm_num) (by norm_num)
      (rsvList_bounds high low close hh hl hlc) v hv
  refine ⟨hK, ?_, ?_⟩
  · intro v hv
    exact ewmNanFrom_bounds (1 / 3) 0 100 (by norm_num) _ (0, 0)
      (le_refl 0) (by norm_num) (by norm_num) hK v hv
  · intro i hi hM lm hMeq hmeq hz
    unfold rsvList
    rw [getD_map_range _ _ _ hi, hMeq, hmeq]
    simp [hz]

/-- C8 counterexample: the k array of the per-stock API view on the two-bar
series [100, 1] holds the macd value −231/104 at index 1: a number (not the
null marker) strictly below 0, outside [0,100]. -/
theorem c8_counterexample :
    (apiK [100, 1]).getD 1 0 = -231 / 104 ∧ (apiK [100, 1]).getD 1 0 < 0 := by
  constructor
  · norm_num [apiK, apiMacd, apiEma, emaAdjFrom]
  · norm_num [apiK, apiMacd, apiEma, emaAdjFrom]

/-- C8 witness: on nine flat-range bars (high 10, low 0, close 5) the ninth K
value is defined and equals 50, and the bound theorem applies to it; the
earlier positions are null (window unfilled). -/
theorem c8_witness :
    some (50 : ℚ) ∈ fetcherK [10, 10, 10, 10, 10, 10, 10, 10, 10]
      [0, 0, 0, 0, 0, 0, 0, 0, 0] [5, 5, 5, 5, 5, 5, 5, 5, 5] ∧
    (0 ≤ (50 : ℚ) ∧ (50 : ℚ) ≤ 100) := by
  have hmem : some (50 : ℚ) ∈ fetcherK [10, 10, 10, 10, 10, 10, 10, 10, 10]
      [0, 0, 0, 0, 0, 0, 0, 0, 0] [5, 5, 5, 5, 5, 5, 5, 5, 5] := by
    norm_num [fetcherK, ewmNan, ewmNanFrom, ewmStep, rsvList, rollingMin, rollingMax,
      listMin, listMax, List.range_succ]
  refine ⟨hmem, ?_⟩
  exact (c8_kd_bounds [10, 10, 10, 10, 10, 10, 10, 10, 10] [0, 0, 0, 0, 0, 0, 0, 0, 0]
    [5, 5, 5, 5, 5, 5, 5, 5, 5] (by norm_num) (by norm_num)
    (by
      intro i hi
      norm_num at hi
      interval_cases i <;> norm_num [List.getD])).1 50 hmem

/-- deriveCost changes only total_cost. -/
theorem deriveCost_proj (td : TradeData) :
    (deriveCost td).buy_price = td.buy_price ∧
    (deriveCost td).sell_price = td.sell_price ∧
    (deriveCost td).shares = td.shares ∧
    (deriveCost td).total_revenue = td.total_revenue ∧
    (deriveCost td).profit_loss = td.profit_loss ∧
    (deriveCost td).profit_loss_pct = td.profit_loss_pct ∧
    (deriveCost td).buy_date = td.buy_date ∧
    (deriveCost td).sell_date = td.sell_date ∧
    (deriveCost td).holding_days = td.holding_days := by
  unfold deriveCost
  split_ifs <;> simp

/-- deriveRevenue changes neither total_cost nor the date fields. -/
theorem deriveRevenue_proj (td : TradeData) :
    (deriveRevenue td).total_cost = td.total_cost ∧
    (deriveRevenue td).buy_date = td.buy_date ∧
    (deriveRevenue td).sell_date = td.sell_date ∧
    (deriveRevenue td).holding_days = td.holding_days := by
  unfold deriveRevenue
  split_ifs <;> simp

/-- deriveHolding changes only holding_days. -/
theorem deriveHolding_proj (td : TradeData) :
    (deriveHolding td).total_cost = td.total_cost ∧
    (deriveHolding td).total_revenue = td.total_revenue ∧
    (deriveHolding td).profit_loss = td.profit_loss ∧
    (deriveHolding td).profit_loss_pct = td.profit_loss_pct := by
  unfold deriveHolding
  split_ifs
  · cases hp : parseYmd (td.buy_date.getD "") <;>
      cases hq : parseYmd (td.sell_date.getD "") <;> simp
  · simp

/-- C3 counterexample: a trade_data with buy_price present but 0 (and shares
1000, both fields present) stores no total_cost at all: the stored value is
None, not the product 0 the claim requires for present fields (Python
truthiness skips the computation). -/
theorem c3_counterexample :
    (addTradeDerive
      { buy_price := some 0, sell_price := none, shares := some 1000,
        total_cost := none, total_revenue := none, profit_loss := none,
        profit_loss_pct := none, buy_date := none, sell_date := none,
        holding_days := none }).total_cost = none ∧
    (none : Option ℚ) ≠ some (0 * 1000) := by
  constructor
  · simp [addTradeDerive, deriveCost, deriveRevenue, deriveHolding, truthyQ, truthyS]
  · simp

/-- C3 amended: add_trade computes total_cost = buy_price × shares exactly
when both are truthy (present and nonzero), total_revenue = sell_price ×
shares exactly when both are truthy, profit_loss = total_revenue − total_cost
and profit_loss_pct = profit_loss / total_cost × 100 exactly when the sale
fields are truthy and the (possibly just computed) total_cost is truthy, and
holding_days = sell_date − buy_date in days exactly when both date strings
are truthy and parse as valid calendar dates, every other case leaving the
respective fields unchanged and the insert succeeding. -/
theorem c3_add_trade_derived (td : TradeData) :
    ((truthyQ td.buy_price && truthyQ td.shares) = true →
      (addTradeDerive td).total_cost = some (td.buy_price.getD 0 * td.shares.getD 0)) ∧
    ((truthyQ td.buy_price && truthyQ td.shares) = false →
      (addTradeDerive td).total_cost = td.total_cost) ∧
    ((truthyQ td.sell_price && truthyQ td.shares) = true →
      (addTradeDerive td).total_revenue = some (td.sell_price.getD 0 * td.shares.getD 0)) ∧
    ((truthyQ td.sell_price && truthyQ td.shares) = false →
      (addTradeDerive td).total_revenue = td.total_revenue ∧
      (addTradeDerive td).profit_loss = td.profit_loss ∧
      (addTradeDerive td).profit_loss_pct = td.profit_loss_pct) ∧
    ((truthyQ td.sell_price && truthyQ td.shares) = true →
      truthyQ (deriveCost td).total_cost = true →
      (addTradeDerive td).profit_loss =
        some (td.sell_price.getD 0 * td.shares.getD 0 - (deriveCost td).total_cost.getD 0) ∧
      (addTradeDerive td).profit_loss_pct =
        some ((td.sell_price.getD 0 * td.shares.getD 0 - (deriveCost td).total_cost.getD 0)
          / (deriveCost td).total_cost.getD 0 * 100)) ∧
    ((truthyQ td.sell_price && truthyQ td.shares) = true →
      truthyQ (deriveCost td).total_cost = false →
      (addTradeDerive td).profit_loss = td.profit_loss ∧
      (addTradeDerive td).profit_loss_pct = td.profit_loss_pct) ∧
    ((truthyS td.buy_date && truthyS td.sell_date) = true →
      ∀ b s : ℕ, parseYmd (td.buy_date.getD "") = some b →
        parseYmd (td.sell_date.getD "") = some s →
        (addTradeDerive td).holding_days = some ((s : ℤ) - (b : ℤ))) ∧
    ((truthyS td.buy_date && truthyS td.sell_date) = false ∨
        parseYmd (td.buy_date.getD "") = none ∨ parseYmd (td.sell_date.getD "") = none →
      (addTradeDerive td).holding_days = td.holding_days) := by
  have hc := deriveCost_proj td
  have hr := deriveRevenue_proj (deriveCost td)
  have hh := deriveHolding_proj (deriveRevenue (deriveCost td))
  have hbd : (deriveRevenue (deriveCost td)).buy_date = td.buy_date := by
    rw [hr.2.1, hc.2.2.2.2.2.2.1]
  have hsd : (deriveRevenue (deriveCost td)).sell_date = td.sell_date := by
    rw [hr.2.2.1, hc.2.2.2.2.2.2.2.1]
  have hsp : (deriveCost td).sell_price = td.sell_price := hc.2.1
  have hsh : (deriveCost td).shares = td.shares := hc.2.2.1
  refine ⟨?_, ?_, ?_, ?_, ?_, ?_, ?_, ?_⟩
  · intro h
    unfold addTradeDerive
    rw [hh.1, hr.1]
    unfold deriveCost
    rw [if_pos h]
  · intro h
    unfold addTradeDerive
    rw [hh.1, hr.1]
    unfold deriveCost
    rw [if_neg (by simp [h])]
  · intro h
    unfold addTradeDerive
    rw [hh.2.1]
    unfold deriveRevenue
    rw [hsp, hsh, if_pos h]
    split_ifs <;> simp
  · intro h
    unfold addTradeDerive
    rw [hh.2.1, hh.2.2.1, hh.2.2.2]
    unfold deriveRevenue
    rw [hsp, hsh, if_neg (by simp [h])]
    exact ⟨hc.2.2.2.1, hc.2.2.2.2.1, hc.2.2.2.2.2.1⟩
  · intro h htc
    unfold addTradeDerive
    rw [hh.2.2.1, hh.2.2.2]
    unfold deriveRevenue
    rw [hsp, hsh, if_pos h, if_pos htc]
    simp
  · intro h htc
    unfold addTradeDerive
    rw [hh.2.2.1, hh.2.2.2]
    unfold deriveRevenue
    rw [hsp, hsh, if_pos h, if_neg (by simp [htc])]
    exact ⟨hc.2.2.2.2.1, hc.2.2.2.2.2.1⟩
  · intro h b s hpb hps
    unfold addTradeDerive deriveHolding
    rw [hbd, hsd, if_pos h, hpb, hps]
  · intro h
    unfold addTradeDerive deriveHolding
    rw [hbd, hsd]
    have hkeep : (deriveRevenue (deriveCost td)).holding_days = td.holding_days := by
      rw [hr.2.2.2, hc.2.2.2.2.2.2.2.2]
    rcases h with h | h | h
    · rw [if_neg (by simp [h])]
      exact hkeep
    · split_ifs
      · rw [h]
        cases parseYmd (td.sell_date.getD "") <;> exact hkeep
      · exact hkeep
    · split_ifs
      · rw [h]
        cases parseYmd (td.buy_date.getD "") <;> exact hkeep
      · exact hkeep

/-- C3 witness: the spec's concrete sale scenario, stored record values
total_cost 1050000, total_revenue 1180000, profit_loss 130000,
profit_loss_pct 260/21 ≈ 12.38, holding_days 64. -/
theorem c3_witness :
    (addTradeDerive sampleTrade).total_cost = some 1050000 ∧
    (addTradeDerive sampleTrade).total_revenue = some 1180000 ∧
    (addTradeDerive sampleTrade).profit_loss = some 130000 ∧
    (addTradeDerive sampleTrade).profit_loss_pct = some (260 / 21) ∧
    (addTradeDerive sampleTrade).holding_days = some 64 := by
  have h := c3_add_trade_derived sampleTrade
  have hbuy : (truthyQ sampleTrade.buy_price && truthyQ sampleTrade.shares) = true := by
    norm_num [sampleTrade, truthyQ]
  have hsell : (truthyQ sampleTrade.sell_price && truthyQ sampleTrade.shares) = true := by
    norm_num [sampleTrade, truthyQ]
  have htc : truthyQ (deriveCost sampleTrade).total_cost = true := by
    norm_num [deriveCost, sampleTrade, truthyQ]
  have hdates : (truthyS sampleTrade.buy_date && truthyS sampleTrade.sell_date) = true := by
    decide
  refine ⟨?_, ?_, ?_, ?_, ?_⟩
  · rw [h.1 hbuy]
    norm_num [sampleTrade]
  · rw [h.2.2.1 hsell]
    norm_num [sampleTrade]
  · rw [(h.2.2.2.2.1 hsell htc).1]
    norm_num [sampleTrade, deriveCost, truthyQ]
  · rw [(h.2.2.2.2.1 hsell htc).2]
    norm_num [sampleTrade, deriveCost, truthyQ]
  · rw [h.2.2.2.2.2.2.1 hdates 739566 739630 (by decide) (by decide)]
    norm_num

/-- A non-truthy optional number reads back as 0. -/
theorem getD_eq_zero_of_not_truthy (o : Option ℚ) (h : truthyQ o = false) :
    o.getD 0 = 0 := by
  cases o with
  | none => rfl
  | some v =>
    simp [truthyQ] at h
    simpa using h

/-- Summing only the truthy values of a field equals summing with null read
as 0: the skipped entries contribute nothing. -/
theorem sum_truthy_filter (l : List TradeRow) (f : TradeRow → Option ℚ) :
    ((l.filter (fun t => truthyQ (f t))).map (fun t => (f t).getD 0)).sum
      = (l.map (fun t => (f t).getD 0)).sum := by
  induction l with
  | nil => rfl
  | cons t rest ih =>
    rw [List.filter_cons]
    by_cases h : truthyQ (f t) = true
    · rw [if_pos h]
      simp [ih]
    · have hz := getD_eq_zero_of_not_truthy (f t) (by simpa using h)
      rw [if_neg (by simpa using h)]
      simp [ih, hz]

/-- Membership in the first-occurrence key fold. -/
theorem mem_foldl_keys (l : List (Option String)) (acc : List (Option String))
    (k : Option String) :
    (k ∈ l.foldl (fun acc k => if k ∈ acc then acc else acc ++ [k]) acc)
      ↔ k ∈ acc ∨ k ∈ l := by
  induction l generalizing acc with
  | nil => simp
  | cons x rest ih =>
    simp only [List.foldl_cons]
    rw [ih]
    by_cases hx : x ∈ acc
    · rw [if_pos hx]
      constructor
      · rintro (h | h)
        · exact Or.inl h
        · exact Or.inr (List.mem_cons_of_mem _ h)
      · rintro (h | h)
        · exact Or.inl h
        · rcases List.mem_cons.mp h with rfl | h2
          · exact Or.inl hx
          · exact Or.inr h2
    · rw [if_neg hx]
      constructor
      · rintro (h | h)
        · rcases List.mem_append.mp h with h1 | h1
          · exact Or.inl h1
          · rw [List.mem_singleton] at h1
            exact Or.inr (h1 ▸ List.mem_cons_self _ _)
        · exact Or.inr (List.mem_cons_of_mem _ h)
      · rintro (h | h)
        · exact Or.inl (List.mem_append.mpr (Or.inl h))
        · rcases List.mem_cons.mp h with rfl | h2
          · exact Or.inl (List.mem_append.mpr (Or.inr (List.mem_singleton.mpr rfl)))
          · exact Or.inr h2

/-- firstOccKeys holds exactly the keys occurring in the list. -/
theorem mem_firstOccKeys (l : List (Option String)) (k : Option String) :
    k ∈ firstOccKeys l ↔ k ∈ l := by
  unfold firstOccKeys
  rw [mem_foldl_keys]
  simp

/-- The per-group statistics of a non-empty group, written with the
null-as-zero sums of the specification. -/
theorem analyzeGroup_spec (l : List TradeRow) (hl : l ≠ []) :
    (analyzeGroup l).count = l.length ∧
    (analyzeGroup l).success_count = (l.filter (fun t => t.result = some "成功")).length ∧
    (analyzeGroup l).success_rate =
      ((l.filter (fun t => t.result = some "成功")).length : ℚ) / (l.length : ℚ) * 100 ∧
    (analyzeGroup l).avg_profit_loss_pct =
      (l.map (fun t => t.profit_loss_pct.getD 0)).sum / (l.length : ℚ) ∧
    (analyzeGroup l).total_profit_loss = (l.map (fun t => t.profit_loss.getD 0)).sum := by
  have hpos : 0 < l.length := List.length_pos.mpr hl
  simp only [analyzeGroup]
  refine ⟨trivial, trivial, ?_, ?_, trivial⟩
  · rw [if_pos hpos]
  · rw [if_pos hpos]

/-- The group of an occurring key is non-empty. -/
theorem group_ne_nil (trades : List TradeRow) (key : TradeRow → Option String)
    (k : Option String) (hk : k ∈ trades.map key) :
    trades.filter (fun t => key t = k) ≠ [] := by
  rcases List.mem_map.mp hk with ⟨t, ht, rfl⟩
  exact List.ne_nil_of_mem (List.mem_filter.mpr ⟨ht, by simp⟩)

/-- C4: on a non-empty trade list, analyze_performance returns the exact
count, the strict-equality success and failure counts, success_rate =
success/total × 100, the null-as-zero sum of profit_loss, the null-as-zero
sum of profit_loss_pct divided by the total count, and per-discipline and
per-strategy breakdowns whose every group carries the same shape computed the
same way over the group. -/
theorem c4_analyze_performance (trades : List TradeRow) (hne : trades ≠ []) :
    (analyze_performance trades).total_trades = trades.length ∧
    (analyze_performance trades).success_count
      = (trades.filter (fun t => t.result = some "成功")).length ∧
    (analyze_performance trades).failure_count
      = (trades.filter (fun t => t.result = some "失敗")).length ∧
    (analyze_performance trades).success_rate
      = ((trades.filter (fun t => t.result = some "成功")).length : ℚ)
        / (trades.length : ℚ) * 100 ∧
    (analyze_performance trades).total_profit_loss
      = (trades.map (fun t => t.profit_loss.getD 0)).sum ∧
    (analyze_performance trades).avg_profit_loss_pct
      = (trades.map (fun t => t.profit_loss_pct.getD 0)).sum / (trades.length : ℚ) ∧
    (analyze_performance trades).discipline_analysis = some (analyzeDiscipline trades) ∧
    (analyze_performance trades).strategy_analysis = some (analyzeStrategy trades) ∧
    (∀ k g, (k, g) ∈ analyzeDiscipline trades →
      g.count = (trades.filter (fun t => t.discipline = k)).length ∧
      g.success_count = ((trades.filter (fun t => t.discipline = k)).filter
        (fun t => t.result = some "成功")).length ∧
      g.success_rate = (g.success_count : ℚ) / (g.count : ℚ) * 100 ∧
      g.avg_profit_loss_pct = ((trades.filter (fun t => t.discipline = k)).map
        (fun t => t.profit_loss_pct.getD 0)).sum / (g.count : ℚ) ∧
      g.total_profit_loss = ((trades.filter (fun t => t.discipline = k)).map
        (fun t => t.profit_loss.getD 0)).sum) ∧
    (∀ k g, (k, g) ∈ analyzeStrategy trades →
      g.count = (trades.filter (fun t => t.entry_strategy_id = k)).length ∧
      g.success_count = ((trades.filter (fun t => t.entry_strategy_id = k)).filter
        (fun t => t.result = some "成功")).length ∧
      g.success_rate = (g.success_count : ℚ) / (g.count : ℚ) * 100 ∧
      g.avg_profit_loss_pct = ((trades.filter (fun t => t.entry_strategy_id = k)).map
        (fun t => t.profit_loss_pct.getD 0)).sum / (g.count : ℚ) ∧
      g.total_profit_loss = ((trades.filter (fun t => t.entry_strategy_id = k)).map
        (fun t => t.profit_loss.getD 0)).sum) := by
  have hpos : 0 < trades.length := List.length_pos.mpr hne
  refine ⟨?_, ?_, ?_, ?_, ?_, ?_, ?_, ?_, ?_, ?_⟩
  · unfold analyze_performance
    rw [if_neg hne]
  · unfold analyze_performance
    rw [if_neg hne]
  · unfold analyze_performance
    rw [if_neg hne]
  · unfold analyze_performance
    rw [if_neg hne]
    show (if 0 < trades.length then
        ((trades.filter (fun t => t.result = some "成功")).length : ℚ)
          / (trades.length : ℚ) * 100 else 0) = _
    rw [if_pos hpos]
  · unfold analyze_performance
    rw [if_neg hne]
    exact sum_truthy_filter trades (fun t => t.profit_loss)
  · unfold analyze_performance
    rw [if_neg hne]
    show (if 0 < trades.length then
        ((trades.filter (fun t => truthyQ t.profit_loss_pct)).map
          (fun t => t.profit_loss_pct.getD 0)).sum / (trades.length : ℚ) else 0) = _
    rw [if_pos hpos, sum_truthy_filter trades (fun t => t.profit_loss_pct)]
  · unfold analyze_performance
    rw [if_neg hne]
  · unfold analyze_performance
    rw [if_neg hne]
  · intro k g hkg
    unfold analyzeDiscipline at hkg
    rcases List.mem_map.mp hkg with ⟨k2, hk2, heq⟩
    injection heq with h1 h2
    rw [h1] at hk2 h2
    subst h2
    have hk : k ∈ trades.map (fun t => t.discipline) := (mem_firstOccKeys _ _).mp hk2
    have hnil := group_ne_nil trades (fun t => t.discipline) k hk
    have hs := analyzeGroup_spec _ hnil
    refine ⟨hs.1, hs.2.1, ?_, ?_, hs.2.2.2.2⟩
    · rw [hs.2.2.1, hs.2.1, hs.1]
    · rw [hs.2.2.2.1, hs.1]
  · intro k g hkg
    unfold analyzeStrategy at hkg
    rcases List.mem_map.mp hkg with ⟨k2, hk2, heq⟩
    injection heq with h1 h2
    rw [h1] at hk2 h2
    subst h2
    have hk : k ∈ trades.map (fun t => t.entry_strategy_id) := (mem_firstOccKeys _ _).mp hk2
    have hnil := group_ne_nil trades (fun t => t.entry_strategy_id) k hk
    have hs := analyzeGroup_spec _ hnil
    refine ⟨hs.1, hs.2.1, ?_, ?_, hs.2.2.2.2⟩
    · rw [hs.2.2.1, hs.2.1, hs.1]
    · rw [hs.2.2.2.1, hs.1]

/-- C4 witness: on the two demonstration rows the analysis counts 2 trades,
1 success, 1 failure, success_rate 50, total profit 100 (the NULL row
contributing 0) and average pct 5. -/
theorem c4_witness :
    (analyze_performance demoTrades).total_trades = 2 ∧
    (analyze_performance demoTrades).success_count = 1 ∧
    (analyze_performance demoTrades).failure_count = 1 ∧
    (analyze_performance demoTrades).success_rate = 50 ∧
    (analyze_performance demoTrades).total_profit_loss = 100 ∧
    (analyze_performance demoTrades).avg_profit_loss_pct = 5 := by
  have h := c4_analyze_performance demoTrades (by simp [demoTrades])
  have hf : (demoTrades.filter (fun t => t.result = some "成功")).length = 1 := by decide
  have hg : (demoTrades.filter (fun t => t.result = some "失敗")).length = 1 := by decide
  have hl : demoTrades.length = 2 := rfl
  refine ⟨?_, ?_, ?_, ?_, ?_, ?_⟩
  · rw [h.1, hl]
  · rw [h.2.1, hf]
  · rw [h.2.2.1, hg]
  · rw [h.2.2.2.1, hf, hl]
    norm_num
  · rw [h.2.2.2.2.1]
    norm_num [demoTrades]
  · rw [h.2.2.2.2.2.1, hl]
    norm_num [demoTrades]

/-- C5: analyze_performance on an empty trade set, either no stored trades or
none matching the year filter, returns the all-zero result without any
division (the early return precedes every quotient). -/
theorem c5_analyze_performance_empty :
    analyze_performance []
      = { total_trades := 0, success_count := 0, failure_count := 0,
          success_rate := 0, total_profit_loss := 0, avg_profit_loss_pct := 0,
          discipline_analysis := none, strategy_analysis := none } ∧
    (∀ (trades : List TradeRow) (year : ℕ),
      getTradesYear year trades = [] →
      analyze_performance (getTradesYear year trades)
        = { total_trades := 0, success_count := 0, failure_count := 0,
            success_rate := 0, total_profit_loss := 0, avg_profit_loss_pct := 0,
            discipline_analysis := none, strategy_analysis := none }) := by
  refine ⟨rfl, ?_⟩
  intro trades year h
  rw [h]
  rfl

/-- C5 witness: the empty store filtered by year 2025 is empty and analyses
to the all-zero result. -/
theorem c5_witness :
    getTradesYear 2025 ([] : List TradeRow) = [] ∧
    analyze_performance (getTradesYear 2025 ([] : List TradeRow))
      = { total_trades := 0, success_count := 0, failure_count := 0,
          success_rate := 0, total_profit_loss := 0, avg_profit_loss_pct := 0,
          discipline_analysis := none, strategy_analysis := none } :=
  ⟨rfl, c5_analyze_performance_empty.2 [] 2025 rfl⟩
